import Mathlib

/-!
Shallow embedding of the threaded-comment subsystem of a realtime blog backend:
the comment service (rate limiting, creation, threaded retrieval, soft delete),
its HTTP controller validation, and the websocket notification channel naming.

Sources embedded:
* src/comment/service.rs   (CommentService)
* src/comment/controller.rs (create_comment handler, comment_error_to_response)
* src/comment/model.rs     (data shapes and error enum)
* src/websocket/notifications.rs (channel names, publish_notification)

Modelling conventions: UUIDs are Nat, timestamps are Nat seconds, i64/i32 are
Int. Redis is a key-value store with absolute-time expiries plus an append-only
stream log and a pub/sub publication log. Every fallible Redis call site gets a
Boolean failure switch in `CacheEnv`; the relational store itself is modelled
as always reachable (its only failure mode kept is `fetch_one` finding no row).
serde_json serialization is modelled by a payload type that remembers whether
the bytes are a valid serialization of a response list.
-/

/-- Constant MAX_NESTING_DEPTH from src/comment/service.rs. -/
def MAX_NESTING_DEPTH : Int := 3

/-- Constant COMMENTS_PER_PAGE from src/comment/service.rs. -/
def COMMENTS_PER_PAGE : Int := 20

/-- Constant COMMENT_RATE_LIMIT_SECONDS from src/comment/service.rs. -/
def COMMENT_RATE_LIMIT_SECONDS : Nat := 100

/-- A row of global.users (the columns the comment subsystem reads). -/
structure User where
  id : Nat
  username : String
deriving Repr, DecidableEq

/-- A row of global.posts (the columns the comment subsystem reads). -/
structure Post where
  id : Int
  user_id : Nat
  is_deleted : Bool
deriving Repr, DecidableEq

/-- A row of global.comments (src/comment/model.rs, struct Comment). -/
structure Comment where
  id : Int
  post_id : Int
  user_id : Nat
  parent_comment_id : Option Int
  content : String
  content_html : String
  is_deleted : Bool
  deleted_by : Option Nat
  deleted_at : Option Nat
  markdown_enabled : Bool
  nesting_level : Int
  created_at : Nat
  updated_at : Nat
deriving Repr, DecidableEq

/-- src/comment/model.rs, struct CreateCommentRequest. -/
structure CreateCommentRequest where
  content : String
  parent_comment_id : Option Int
  markdown_enabled : Bool
deriving Repr, DecidableEq

/-- src/comment/model.rs, struct CommentAuthor. -/
structure CommentAuthor where
  id : Nat
  name : String
deriving Repr, DecidableEq

/-- src/comment/model.rs, struct CommentResponse (recursive through
`replies : Option<Vec<CommentResponse>>`). -/
inductive CommentResponse where
  | mk (id : Int) (content_html : String) (author : CommentAuthor) (created_at : Nat)
      (parent_comment_id : Option Int) (replies : Option (List CommentResponse))

/-- Field accessor: id. -/
def CommentResponse.id : CommentResponse → Int
  | .mk i _ _ _ _ _ => i

/-- Field accessor: content_html. -/
def CommentResponse.content_html : CommentResponse → String
  | .mk _ h _ _ _ _ => h

/-- Field accessor: author. -/
def CommentResponse.author : CommentResponse → CommentAuthor
  | .mk _ _ a _ _ _ => a

/-- Field accessor: created_at. -/
def CommentResponse.created_at : CommentResponse → Nat
  | .mk _ _ _ t _ _ => t

/-- Field accessor: parent_comment_id. -/
def CommentResponse.parent_comment_id : CommentResponse → Option Int
  | .mk _ _ _ _ p _ => p

/-- Field accessor: replies. -/
def CommentResponse.replies : CommentResponse → Option (List CommentResponse)
  | .mk _ _ _ _ _ r => r

/-- src/comment/model.rs, enum CommentError. The sqlx / redis error payloads are
external detail and are dropped. -/
inductive CommentError where
  | DatabaseError
  | NotFound
  | PostNotFound
  | Unauthorized
  | RateLimitExceeded
  | InvalidComment
  | MaxNestingDepthReached
  | ValidationError (msg : String)
  | ParentCommentNotFound
  | CacheError
  | DeserializationError
  | InternalError (msg : String)
deriving Repr, DecidableEq

/-- src/notification/model.rs, enum NotificationType. -/
inductive NotificationType where
  | CommentReply
  | NewComment
  | PostLike
  | FollowerUpdate
  | SystemMessage
deriving Repr, DecidableEq

/-- src/notification/model.rs, struct NotificationPayload. -/
structure NotificationPayload where
  recipient_id : Nat
  notification_type : NotificationType
  object_id : Int
  related_object_id : Option Int
  actor_id : Nat
  content : String
deriving Repr, DecidableEq

/-- The bytes stored under a comments:post:{id} cache key: either a valid
serde_json serialization of a response list, or bytes on which
serde_json::from_str fails. -/
inductive CommentsPayload where
  | serialized (rs : List CommentResponse)
  | corrupt

/-- Model of serde_json::from_str::<Vec<CommentResponse>>: succeeds exactly on
valid serializations and round-trips them. -/
def deserializeComments : CommentsPayload → Option (List CommentResponse)
  | .serialized rs => some rs
  | .corrupt => none

/-- A Redis value as used by this subsystem. -/
inductive CacheVal where
  | vstr (s : String)
  | vint (n : Int)
  | vpage (p : CommentsPayload)

/-- One Redis key with its value and optional absolute expiry second. -/
structure CacheEntry where
  key : String
  val : CacheVal
  expires_at : Option Nat

/-- The Redis state: keyspace, the append-only stream log (stream key plus
field-value pairs per XADD), and the pub/sub publication log (channel, payload). -/
structure CacheState where
  entries : List CacheEntry
  stream : List (String × List (String × String))
  published : List (String × NotificationPayload)

/-- Which fallible Redis call sites fail during the modelled call. Each field
matches one connection-acquisition-plus-command site in src/comment/service.rs. -/
structure CacheEnv where
  failRlExists : Bool
  failRlSet : Bool
  failListDel : Bool
  failCountIncr : Bool
  failCountDecr : Bool
  failXadd : Bool
  failPageConn : Bool
  failPageGet : Bool
  failPageSet : Bool
  failPublish : Bool
deriving Repr, DecidableEq

/-- The environment in which no Redis call fails. -/
def envOk : CacheEnv := ⟨false, false, false, false, false, false, false, false, false, false⟩

/-- GET/EXISTS view of the keyspace: a key is live while now is before its
expiry (Redis expiry semantics). -/
def cacheLookup (st : CacheState) (now : Nat) (k : String) : Option CacheVal :=
  match st.entries.find? (fun e => e.key == k) with
  | some e =>
    match e.expires_at with
    | some t => if now < t then some e.val else none
    | none => some e.val
  | none => none

/-- EXISTS. -/
def cacheKeyLive (st : CacheState) (now : Nat) (k : String) : Bool :=
  (cacheLookup st now k).isSome

/-- SET / SET EX: replaces any previous entry under the key. -/
def cacheSet (st : CacheState) (k : String) (v : CacheVal) (e : Option Nat) : CacheState :=
  { st with entries := ⟨k, v, e⟩ :: st.entries.filter (fun en => en.key != k) }

/-- DEL. -/
def cacheDel (st : CacheState) (k : String) : CacheState :=
  { st with entries := st.entries.filter (fun en => en.key != k) }

/-- INCRBY delta (DECRBY is INCRBY with a negative delta): an integer value is
adjusted in place keeping its TTL; an absent key is created without TTL. -/
def cacheIncr (st : CacheState) (now : Nat) (k : String) (delta : Int) : CacheState :=
  match cacheLookup st now k with
  | some (.vint n) =>
    { st with entries := st.entries.map (fun e => if e.key == k then { e with val := .vint (n + delta) } else e) }
  | _ => cacheSet st k (.vint delta) none

/-- Key rate_limit:comment:{user_id} (src/comment/service.rs line 64). -/
def rateLimitKey (user_id : Nat) : String := "rate_limit:comment:" ++ toString user_id

/-- Key comments:post:{post_id} (src/comment/service.rs lines 237, 311, 386, 603). -/
def commentsPostKey (post_id : Int) : String := "comments:post:" ++ toString post_id

/-- Key post:comment_count:{post_id} (src/comment/service.rs lines 250, 614). -/
def commentCountKey (post_id : Int) : String := "post:comment_count:" ++ toString post_id

/-- Channel a live websocket subscriber for a user listens on:
src/websocket/notifications.rs line 182, subscribe_to_user_notifications. -/
def subscribeChannelName (user_id : Nat) : String := "notifications:user:" ++ toString user_id

/-- Channel publish_notification publishes on:
src/websocket/notifications.rs line 236. -/
def publishChannelName (user_id : Nat) : String := "notifications:" ++ toString user_id

/-- The relational store: the three tables this subsystem touches plus the id
the next inserted comment row receives (BIGSERIAL). -/
structure DB where
  posts : List Post
  users : List User
  comments : List Comment
  next_comment_id : Int

/-- The full mutable state a service call sees: database, optional Redis
(None models a cache-less deployment), and the current time in seconds. -/
structure SysState where
  db : DB
  cache : Option CacheState
  now : Nat

/-- SELECT EXISTS(SELECT 1 FROM global.posts WHERE id = $1 AND is_deleted = false). -/
def postExists (db : DB) (post_id : Int) : Bool :=
  db.posts.any (fun p => p.id == post_id && !p.is_deleted)

/-- SELECT ... FROM global.comments WHERE id = $1 (note: no deletion filter;
used for the parent-author and parent-nesting-level reads). -/
def findCommentById (db : DB) (cid : Int) : Option Comment :=
  db.comments.find? (fun c => c.id == cid)

/-- SELECT id, username FROM global.users WHERE id = $1. -/
def findUserById (db : DB) (uid : Nat) : Option User :=
  db.users.find? (fun u => u.id == uid)

/-- Model of Rust str::trim composed with is_empty: whitespace is stripped from
both ends of the character list (Unicode whitespace classes approximated by
Char.isWhitespace). -/
def rustTrim (s : String) : String :=
  ⟨((s.data.dropWhile Char.isWhitespace).reverse.dropWhile Char.isWhitespace).reverse⟩

/-- Model of html_escape::encode_safe on one character (external crate): the
five HTML-significant characters are replaced by entities. -/
def escapeChar (c : Char) : String :=
  if c = '&' then "&amp;"
  else if c = '<' then "&lt;"
  else if c = '>' then "&gt;"
  else if c = '"' then "&quot;"
  else if c = '\'' then "&#39;"
  else String.singleton c

/-- Model of html_escape::encode_safe. -/
def htmlEscapeSafe (s : String) : String :=
  String.join (s.data.map escapeChar)

/-- CommentService::process_markdown (src/comment/service.rs lines 46-59). -/
def process_markdown (content : String) (markdown_enabled : Bool) : Except CommentError String :=
  if !markdown_enabled then .ok (htmlEscapeSafe content)
  else .ok ("<div class=\"markdown\">" ++ content ++ "</div>")

/-- CommentService::check_rate_limit (src/comment/service.rs lines 62-92).
Returns true when the rate-limit marker for the actor is live; when it is
absent, sets the marker with a 100 second expiry and returns false; with no
cache configured it always returns false without touching anything. -/
def check_rate_limit (env : CacheEnv) (st : SysState) (user_id : Nat) :
    Except CommentError Bool × SysState :=
  match st.cache with
  | none => (.ok false, st)
  | some cs =>
    if env.failRlExists then (.error .CacheError, st)
    else
      let k := rateLimitKey user_id
      if cacheKeyLive cs st.now k then (.ok true, st)
      else if env.failRlSet then (.error .CacheError, st)
      else (.ok false,
        { st with cache := some (cacheSet cs k (.vstr "1") (some (st.now + COMMENT_RATE_LIMIT_SECONDS))) })

/-- CommentService::send_reply_notification composed with publish_notification
(src/comment/service.rs lines 690-714, src/websocket/notifications.rs lines
219-241): when Redis is configured, records the publication of the reply payload
on the publish channel; publish errors are swallowed. The source runs this on a
spawned background task; the model applies the effect immediately. -/
def sendReplyNotificationState (env : CacheEnv) (st : SysState) (comment : Comment)
    (reply_to_user_id : Nat) : SysState :=
  match st.cache with
  | none => st
  | some cs =>
    if env.failPublish then st
    else
      let payload : NotificationPayload :=
        { recipient_id := reply_to_user_id
          notification_type := .CommentReply
          object_id := comment.id
          related_object_id := some comment.post_id
          actor_id := comment.user_id
          content := "You have a new reply to your comment." }
      let cs2 : CacheState :=
        { cs with published := cs.published ++ [(publishChannelName reply_to_user_id, payload)] }
      { st with cache := some cs2 }

/-- CommentService::create_comment (src/comment/service.rs lines 109-298),
step for step: the negated check_rate_limit gate, the post-existence check, the
parent-author read, the parent-nesting-level read with the depth bound, markdown
rendering, the transactional insert, the fresh author read, the spawned reply
notification, and the Redis section (list DEL and count INCR propagate errors
through the question-mark operator; the XADD result is discarded). -/
def create_comment (env : CacheEnv) (st : SysState) (post_id : Int) (user_id : Nat)
    (comment_data : CreateCommentRequest) : Except CommentError CommentResponse × SysState :=
  match check_rate_limit env st user_id with
  | (.error e, st1) => (.error e, st1)
  | (.ok limited, st1) =>
  if !limited then (.error .RateLimitExceeded, st1)
  else if !(postExists st1.db post_id) then (.error .PostNotFound, st1)
  else
  let parentAuthorRes : Except CommentError (Option Nat) :=
    match comment_data.parent_comment_id with
    | some pid =>
      match findCommentById st1.db pid with
      | some c => .ok (some c.user_id)
      | none => .error .ParentCommentNotFound
    | none => .ok none
  match parentAuthorRes with
  | .error e => (.error e, st1)
  | .ok parent_author_id =>
  let nestingRes : Except CommentError Int :=
    match comment_data.parent_comment_id with
    | some pid =>
      match findCommentById st1.db pid with
      | some c =>
        if c.nesting_level + 1 > MAX_NESTING_DEPTH then .error .MaxNestingDepthReached
        else .ok (c.nesting_level + 1)
      | none => .error .ParentCommentNotFound
    | none => .ok 0
  match nestingRes with
  | .error e => (.error e, st1)
  | .ok nesting_level =>
  match process_markdown comment_data.content comment_data.markdown_enabled with
  | .error e => (.error e, st1)
  | .ok content_html =>
  let newComment : Comment :=
    { id := st1.db.next_comment_id
      post_id := post_id
      user_id := user_id
      parent_comment_id := comment_data.parent_comment_id
      content := comment_data.content
      content_html := content_html
      is_deleted := false
      deleted_by := none
      deleted_at := none
      markdown_enabled := comment_data.markdown_enabled
      nesting_level := nesting_level
      created_at := st1.now
      updated_at := st1.now }
  let db2 : DB :=
    { st1.db with
      comments := st1.db.comments ++ [newComment]
      next_comment_id := st1.db.next_comment_id + 1 }
  let st2 : SysState := { st1 with db := db2 }
  match findUserById st2.db user_id with
  | none => (.error .DatabaseError, st2)
  | some u =>
  let author : CommentAuthor := { id := u.id, name := u.username }
  let st3 : SysState :=
    match parent_author_id with
    | some pa => if pa != user_id then sendReplyNotificationState env st2 newComment pa else st2
    | none => st2
  let response : CommentResponse :=
    .mk newComment.id content_html author newComment.created_at newComment.parent_comment_id none
  match st3.cache with
  | none => (.ok response, st3)
  | some cs =>
    if env.failListDel then (.error .CacheError, st3)
    else
      let cs1 := cacheDel cs (commentsPostKey post_id)
      if env.failCountIncr then (.error .CacheError, { st3 with cache := some cs1 })
      else
        let cs2 := cacheIncr cs1 st3.now (commentCountKey post_id) 1
        let cs3 :=
          if env.failXadd then cs2
          else
            { cs2 with stream := cs2.stream ++ [("stream:comments",
              [("event", "comment_created"),
               ("post_id", toString post_id),
               ("comment_id", toString newComment.id),
               ("parent_id",
                 match comment_data.parent_comment_id with
                 | some pid => toString pid
                 | none => "null")])] }
        (.ok response, { st3 with cache := some cs3 })

/-- Insert into a list sorted by the Boolean relation le (before the first
element it compares le to): the building block of the stable sort modelling the
SQL ORDER BY. -/
def insertByLe (le : α → α → Bool) (x : α) : List α → List α
  | [] => [x]
  | y :: ys => if le x y then x :: y :: ys else y :: insertByLe le x ys

/-- Stable insertion sort modelling the SQL ORDER BY clauses. -/
def sortByLe (le : α → α → Bool) : List α → List α
  | [] => []
  | x :: xs => insertByLe le x (sortByLe le xs)

/-- The reply query of get_comment_replies (and of both nested levels):
SELECT c.*, u.username, u.id FROM global.comments c JOIN global.users u ON
c.user_id = u.id WHERE c.parent_comment_id = $1 AND c.is_deleted = false
ORDER BY c.created_at ASC. The inner join drops comments whose author row is
missing. -/
def repliesRows (db : DB) (cid : Int) : List (Comment × User) :=
  (sortByLe (fun a b => decide (a.created_at ≤ b.created_at))
      (db.comments.filter (fun c => c.parent_comment_id == some cid && !c.is_deleted))).filterMap
    (fun c => (findUserById db c.user_id).map (fun u => (c, u)))

/-- Assembles a CommentResponse from a joined row and its nested replies. -/
def mkReplyResponse (cu : Comment × User) (nested : Option (List CommentResponse)) :
    CommentResponse :=
  .mk cu.1.id cu.1.content_html ⟨cu.2.id, cu.2.username⟩ cu.1.created_at
    cu.1.parent_comment_id nested

/-- Third reply level of get_comment_replies (src/comment/service.rs lines
468-509): fetched rows become leaves (replies = none); an empty fetch yields
none rather than some []. -/
def buildLevel3 (db : DB) (cid : Int) : Option (List CommentResponse) :=
  let rows := repliesRows db cid
  if rows.isEmpty then none
  else some (rows.map (fun cu => mkReplyResponse cu none))

/-- Second reply level of get_comment_replies (src/comment/service.rs lines
439-533): each row recurses one further level while its nesting level is below
MAX_NESTING_DEPTH; an empty fetch yields none. -/
def buildLevel2 (db : DB) (cid : Int) : Option (List CommentResponse) :=
  let rows := repliesRows db cid
  if rows.isEmpty then none
  else some (rows.map (fun cu =>
    mkReplyResponse cu
      (if cu.1.nesting_level < MAX_NESTING_DEPTH then buildLevel3 db cu.1.id else none)))

/-- CommentService::get_comment_replies (src/comment/service.rs lines 407-552):
direct replies of a comment with two further explicitly unrolled levels. -/
def get_comment_replies (db : DB) (comment_id : Int) : List CommentResponse :=
  (repliesRows db comment_id).map (fun cu =>
    mkReplyResponse cu
      (if cu.1.nesting_level < MAX_NESTING_DEPTH then buildLevel2 db cu.1.id else none))

/-- The root query of get_post_comments: SELECT * FROM global.comments WHERE
post_id = $1 AND parent_comment_id IS NULL AND is_deleted = false ORDER BY
created_at DESC LIMIT 20 OFFSET (page-1)*20. -/
def rootComments (db : DB) (post_id : Int) (page : Int) : List Comment :=
  ((sortByLe (fun a b => decide (b.created_at ≤ a.created_at))
      (db.comments.filter
        (fun c => c.post_id == post_id && c.parent_comment_id == none && !c.is_deleted))).drop
    ((page - 1) * COMMENTS_PER_PAGE).toNat).take COMMENTS_PER_PAGE.toNat

/-- The per-root loop of get_post_comments (src/comment/service.rs lines
356-382): each root gets its reply tree and its author (fetch_one on
global.users: a missing author row is a database error); the root response is
built with parent_comment_id = none and replies = some of the fetched list. -/
def rootsToResponses (db : DB) : List Comment → Except CommentError (List CommentResponse)
  | [] => .ok []
  | c :: rest =>
    match findUserById db c.user_id with
    | none => .error .DatabaseError
    | some u =>
      match rootsToResponses db rest with
      | .error e => .error e
      | .ok rs =>
        .ok (.mk c.id c.content_html ⟨u.id, u.username⟩ c.created_at none
              (some (get_comment_replies db c.id)) :: rs)

/-- The store-rebuild part of get_post_comments: root query plus per-root loop. -/
def build_post_comments (db : DB) (post_id : Int) (page : Int) :
    Except CommentError (List CommentResponse) :=
  rootsToResponses db (rootComments db post_id page)

/-- CommentService::get_post_comments (src/comment/service.rs lines 301-404):
when with_cache is set and Redis is configured, probe the comments:post:{id}
key (connection errors propagate; a failed GET falls through; a live value that
does not deserialize is returned as DeserializationError); on a miss rebuild
from the store and, whenever Redis is configured, store the serialized page
with a 3600 second expiry (SET EX errors propagate). -/
def get_post_comments (env : CacheEnv) (st : SysState) (post_id : Int) (page : Option Int)
    (with_cache : Bool) : Except CommentError (List CommentResponse) × SysState :=
  let page := page.getD 1
  let probe : Option (Except CommentError (List CommentResponse)) :=
    if with_cache && st.cache.isSome then
      if env.failPageConn then some (.error .CacheError)
      else if env.failPageGet then none
      else
        match st.cache.bind (fun cs => cacheLookup cs st.now (commentsPostKey post_id)) with
        | some (.vpage p) =>
          match deserializeComments p with
          | some rs => some (.ok rs)
          | none => some (.error .DeserializationError)
        | some _ => some (.error .DeserializationError)
        | none => none
    else none
  match probe with
  | some r => (r, st)
  | none =>
    match build_post_comments st.db post_id page with
    | .error e => (.error e, st)
    | .ok rs =>
      match st.cache with
      | none => (.ok rs, st)
      | some cs =>
        if env.failPageSet then (.error .CacheError, st)
        else
          let cs2 :=
            cacheSet cs (commentsPostKey post_id) (.vpage (.serialized rs)) (some (st.now + 3600))
          (.ok rs, { st with cache := some cs2 })

/-- CommentService::delete_comment (src/comment/service.rs lines 555-642):
fetch the live comment (WHERE id = $1 AND is_deleted = false), authorize the
actor, soft-delete the row in place, then the Redis section (list DEL and count
DECR propagate errors; the XADD result is discarded). -/
def delete_comment (env : CacheEnv) (st : SysState) (comment_id : Int) (user_id : Nat)
    (is_admin : Bool) : Except CommentError Int × SysState :=
  match st.db.comments.find? (fun c => c.id == comment_id && !c.is_deleted) with
  | none => (.error .NotFound, st)
  | some comment =>
    if comment.user_id != user_id && !is_admin then (.error .Unauthorized, st)
    else
      let db2 : DB :=
        { st.db with comments := st.db.comments.map (fun c =>
            if c.id == comment_id then
              { c with is_deleted := true
                       content := "[deleted]"
                       content_html := "<p>[deleted]</p>"
                       deleted_by := some user_id
                       deleted_at := some st.now
                       updated_at := st.now }
            else c) }
      let st2 : SysState := { st with db := db2 }
      match st2.cache with
      | none => (.ok comment_id, st2)
      | some cs =>
        if env.failListDel then (.error .CacheError, st2)
        else
          let cs1 := cacheDel cs (commentsPostKey comment.post_id)
          if env.failCountDecr then (.error .CacheError, { st2 with cache := some cs1 })
          else
            let cs2 := cacheIncr cs1 st2.now (commentCountKey comment.post_id) (-1)
            let cs3 :=
              if env.failXadd then cs2
              else
                { cs2 with stream := cs2.stream ++ [("stream:comments",
                  [("event", "comment_deleted"),
                   ("post_id", toString comment.post_id),
                   ("comment_id", toString comment_id)])] }
            (.ok comment_id, { st2 with cache := some cs3 })

/-- src/comment/model.rs, struct CommentErrorResponse. -/
structure CommentErrorResponse where
  error : String
  code : String
deriving Repr, DecidableEq

/-- comment_error_to_response (src/comment/controller.rs lines 26-92): HTTP
status plus the error body for each service error. -/
def comment_error_to_response : CommentError → Nat × CommentErrorResponse
  | .DatabaseError => (500, ⟨"Database error", "DB_ERROR"⟩)
  | .CacheError => (500, ⟨"Cache error", "CACHE_ERROR"⟩)
  | .NotFound => (404, ⟨"Comment not found", "NOT_FOUND"⟩)
  | .PostNotFound => (404, ⟨"Post not found", "POST_NOT_FOUND"⟩)
  | .ParentCommentNotFound => (404, ⟨"Parent comment not found", "PARENT_NOT_FOUND"⟩)
  | .Unauthorized => (401, ⟨"Not authorized to perform this action", "UNAUTHORIZED"⟩)
  | .RateLimitExceeded => (429, ⟨"Rate limit exceeded, please try again later", "RATE_LIMITED"⟩)
  | .MaxNestingDepthReached => (400, ⟨"Maximum nesting depth reached for comments", "MAX_DEPTH"⟩)
  | .ValidationError _ => (400, ⟨"Invalid input", "VALIDATION_ERROR"⟩)
  | .InvalidComment => (400, ⟨"Invalid comment", "INVALID_COMMENT"⟩)
  | .DeserializationError => (500, ⟨"Failed to process comment data", "DESERIALIZATION_ERROR"⟩)
  | .InternalError _ => (500, ⟨"Internal server error", "INTERNAL_SERVER_ERROR"⟩)

/-- An HTTP response body from the comment controller. -/
inductive HttpBody where
  | comment (c : CommentResponse)
  | err (e : CommentErrorResponse)

/-- The create_comment axum handler (src/comment/controller.rs lines 117-153):
content validation (emptiness after trimming, then the 5000-byte length cap)
before the service is invoked; str::len counts UTF-8 bytes, modelled by
String.utf8ByteSize. -/
def controller_create_comment (env : CacheEnv) (st : SysState) (post_id : Int) (user_id : Nat)
    (comment_data : CreateCommentRequest) : (Nat × HttpBody) × SysState :=
  if rustTrim comment_data.content == "" then
    let r := comment_error_to_response (.ValidationError "Comment content cannot be empty")
    ((r.1, .err r.2), st)
  else if comment_data.content.utf8ByteSize > 5000 then
    let r := comment_error_to_response (.ValidationError "Comment content exceeds maximum length")
    ((r.1, .err r.2), st)
  else
    match create_comment env st post_id user_id comment_data with
    | (.ok c, st2) => ((201, .comment c), st2)
    | (.error e, st2) =>
      let r := comment_error_to_response e
      ((r.1, .err r.2), st2)

/-- True on .ok results. -/
def exceptIsOkB : Except ε α → Bool
  | .ok _ => true
  | .error _ => false

/-- All nodes of a response tree: the node itself and, recursively, every node
of its reply forest. -/
def CommentResponse.subNodes : CommentResponse → List CommentResponse
  | .mk i h a t p none => [.mk i h a t p none]
  | .mk i h a t p (some rs) => .mk i h a t p (some rs) :: rs.attach.flatMap (fun x => x.1.subNodes)
decreasing_by
  have := List.sizeOf_lt_of_mem x.2
  simp_wf
  omega

/-- All nodes of a response forest at every depth. -/
def collectNodes (rs : List CommentResponse) : List CommentResponse :=
  rs.flatMap CommentResponse.subNodes

/-- A node neither carries the given comment id nor names it as parent. -/
def avoidsId (cid : Int) (n : CommentResponse) : Bool :=
  n.id != cid && n.parent_comment_id != some cid

/-- Test fixture: a user. -/
def userAlice : User := ⟨1, "alice"⟩

/-- Test fixture: a user. -/
def userBob : User := ⟨2, "bob"⟩

/-- Test fixture: a user. -/
def userCarol : User := ⟨3, "carol"⟩

/-- Test fixture: a live post. -/
def postOne : Post := ⟨1, 2, false⟩

/-- Test fixture: an empty Redis. -/
def emptyCache : CacheState := ⟨[], [], []⟩

/-- Test fixture: a plain root-comment request. -/
def reqHello : CreateCommentRequest := ⟨"hello", none, false⟩

/-- Test fixture: post 1 and user 1, no comments yet. -/
def dbFresh : DB := ⟨[postOne], [userAlice], [], 100⟩

/-- Test fixture: fresh database, empty cache, time 0. -/
def stFresh : SysState := ⟨dbFresh, some emptyCache, 0⟩

/-- Claim C1 (code bug): with a cache configured and every other precondition
satisfied, the FIRST create_comment call of a fresh actor is rejected with
RateLimitExceeded — while the rate-limit marker is set — a second call 10
seconds later SUCCEEDS, and a third call after the 100-second window (at
second 150) is rejected again. create_comment negates the check_rate_limit
result, whose true value means "currently limited", so the claimed behaviour
(first succeeds, second rejected, third after the window succeeds) is exactly
inverted. -/
theorem rate_limit_gate_inverted :
    (create_comment envOk stFresh 1 1 reqHello).1 = .error .RateLimitExceeded
    ∧ cacheKeyLive ((create_comment envOk stFresh 1 1 reqHello).2.cache.getD emptyCache) 0
        (rateLimitKey 1) = true
    ∧ exceptIsOkB
        (create_comment envOk { (create_comment envOk stFresh 1 1 reqHello).2 with now := 10 }
          1 1 reqHello).1 = true
    ∧ (create_comment envOk { (create_comment envOk stFresh 1 1 reqHello).2 with now := 150 }
        1 1 reqHello).1 = .error .RateLimitExceeded :=
  ⟨rfl, rfl, rfl, rfl⟩

/-- Claim C2 (code bug): with no cache configured check_rate_limit returns
false, and the negated gate in create_comment therefore rejects EVERY call with
RateLimitExceeded, leaving the state untouched. The limiter is not inert in a
cache-less deployment — it blocks all comment creation. -/
theorem no_cache_always_rate_limited (env : CacheEnv) (st : SysState) (post_id : Int)
    (user_id : Nat) (req : CreateCommentRequest) (h : st.cache = none) :
    create_comment env st post_id user_id req = (.error .RateLimitExceeded, st) := by
  unfold create_comment check_rate_limit
  rw [h]
  rfl

/-- Test fixture: fresh database with no cache backend. -/
def stNoCache : SysState := ⟨dbFresh, none, 0⟩

/-- Witness for no_cache_always_rate_limited at a concrete cache-less state. -/
theorem no_cache_always_rate_limited_witness :
    create_comment envOk stNoCache 1 1 reqHello = (.error .RateLimitExceeded, stNoCache) :=
  no_cache_always_rate_limited envOk stNoCache 1 1 reqHello rfl

/-- Test fixture: only the list-invalidation DEL fails. -/
def envFailDel : CacheEnv := ⟨false, false, true, false, false, false, false, false, false, false⟩

/-- Test fixture: only the comment-count DECR fails. -/
def envFailDecr : CacheEnv := ⟨false, false, false, false, true, false, false, false, false, false⟩

/-- Test fixture: a cache holding a live rate-limit marker for user 1 (so the
inverted gate in create_comment lets the call proceed). -/
def cacheMarker1 : CacheState := ⟨[⟨rateLimitKey 1, .vstr "1", some 100⟩], [], []⟩

/-- Test fixture: fresh database with user 1 inside the rate-limit window. -/
def stMarked : SysState := ⟨dbFresh, some cacheMarker1, 10⟩

/-- Test fixture: a live root comment with id 5 by user 1 on post 1. -/
def commentFive : Comment := ⟨5, 1, 1, none, "hi", "hi", false, none, none, false, 0, 1, 1⟩

/-- Test fixture: database holding comment 5. -/
def dbWithFive : DB := ⟨[postOne], [userAlice], [commentFive], 100⟩

/-- Test fixture: state for the delete scenario. -/
def stDel : SysState := ⟨dbWithFive, some emptyCache, 10⟩

/-- Claim C3 (code bug): a Redis failure in the post-commit "optional" section
propagates to the caller. Create: with the comment-list DEL failing,
create_comment returns CacheError even though the insert already committed
(the comment table grew by one row). Delete: with the count DECR failing,
delete_comment returns CacheError even though the row was already soft-deleted.
(Only the structural-change XADD is actually swallowed.) -/
theorem optional_step_cache_error_propagates :
    (create_comment envFailDel stMarked 1 1 reqHello).1 = .error .CacheError
    ∧ (create_comment envFailDel stMarked 1 1 reqHello).2.db.comments.length = 1
    ∧ (delete_comment envFailDecr stDel 5 1 false).1 = .error .CacheError
    ∧ ((delete_comment envFailDecr stDel 5 1 false).2.db.comments.map
        (fun c => c.is_deleted)) = [true] :=
  ⟨rfl, rfl, rfl, rfl⟩

/-- Test fixture: a live root comment with id 20 by user 3 on post 1. -/
def commentTwenty : Comment := ⟨20, 1, 3, none, "root", "root", false, none, none, false, 0, 1, 1⟩

/-- Test fixture: database for the reply-notification scenario. -/
def dbReply : DB := ⟨[postOne], [userAlice, userCarol], [commentTwenty], 100⟩

/-- Test fixture: user 1 is inside the window, so the inverted gate passes. -/
def stReply : SysState := ⟨dbReply, some cacheMarker1, 10⟩

/-- Test fixture: a reply request targeting comment 20. -/
def reqReplyTo20 : CreateCommentRequest := ⟨"nice", some 20, false⟩

/-- Test fixture: a cache with a live rate-limit marker for user 3. -/
def cacheMarker3 : CacheState := ⟨[⟨rateLimitKey 3, .vstr "1", some 100⟩], [], []⟩

/-- Test fixture: the self-reply scenario state. -/
def stSelfReply : SysState := ⟨dbReply, some cacheMarker3, 10⟩

/-- Claim C8 (code bug): the channel publish_notification publishes on,
"notifications:{r}", is NOT the channel a connected subscriber for recipient r
listens on, "notifications:user:{r}" — so the published reply event can never
reach the subscriber. Concretely: a reply by user 1 to user 3's comment
publishes exactly one event, on the publish channel, which differs from the
subscribe channel; a self-reply by user 3 publishes nothing (that part of the
claim matches the code). -/
theorem notification_channel_mismatch :
    publishChannelName 3 = "notifications:3"
    ∧ subscribeChannelName 3 = "notifications:user:3"
    ∧ publishChannelName 3 ≠ subscribeChannelName 3
    ∧ (match (create_comment envOk stReply 1 1 reqReplyTo20).2.cache with
       | some cs => cs.published.map Prod.fst
       | none => []) = [publishChannelName 3]
    ∧ (match (create_comment envOk stSelfReply 1 3 reqReplyTo20).2.cache with
       | some cs => cs.published.map Prod.fst
       | none => []) = [] :=
  ⟨rfl, rfl, by decide, rfl, rfl⟩

/-- Character count never exceeds UTF-8 byte count. -/
theorem string_length_le_utf8Size (s : String) : s.length ≤ s.utf8ByteSize := by
  rcases s with ⟨data⟩
  simp [String.length, String.utf8ByteSize]
  induction data with
  | nil => simp [String.utf8ByteSize.go]
  | cons c cs ih =>
    simp [String.utf8ByteSize.go]
    have h1 : 1 ≤ c.utf8Size := Char.utf8Size_pos c
    omega

/-- Claim C9: a create request whose content is empty after trimming whitespace
or longer than 5000 characters is rejected by the controller with HTTP 400 and
code VALIDATION_ERROR, and the returned state is exactly the input state: the
rate limiter sets no marker and no row is inserted, because the service is
never invoked. -/
theorem validation_rejects_before_side_effects (env : CacheEnv) (st : SysState) (post_id : Int)
    (user_id : Nat) (req : CreateCommentRequest)
    (h : rustTrim req.content = "" ∨ 5000 < req.content.length) :
    controller_create_comment env st post_id user_id req
      = ((400, .err ⟨"Invalid input", "VALIDATION_ERROR"⟩), st) := by
  unfold controller_create_comment
  by_cases hb : rustTrim req.content = ""
  · simp [hb, comment_error_to_response]
  · have hlen : 5000 < req.content.length := by
      rcases h with h1 | h2
      · exact absurd h1 hb
      · exact h2
    have hbyte : 5000 < req.content.utf8ByteSize :=
      lt_of_lt_of_le hlen (string_length_le_utf8Size _)
    simp [hb, hbyte, comment_error_to_response]

/-- Witness for validation_rejects_before_side_effects: whitespace-only content. -/
theorem validation_rejects_before_side_effects_witness :
    controller_create_comment envOk stFresh 1 1 ⟨"   ", none, false⟩
      = ((400, .err ⟨"Invalid input", "VALIDATION_ERROR"⟩), stFresh) :=
  validation_rejects_before_side_effects envOk stFresh 1 1 ⟨"   ", none, false⟩ (Or.inl rfl)

/-- Test fixture: a live root comment with id 10 by user 2 on post 1. -/
def commentTen : Comment := ⟨10, 1, 2, none, "a", "a", false, none, none, false, 0, 1, 1⟩

/-- Test fixture: database with exactly one root comment and its author. -/
def dbRootOnly : DB := ⟨[postOne], [userBob], [commentTen], 100⟩

/-- Test fixture: Redis holding an undeserializable payload under post 1's
comment-list key. -/
def cacheCorrupt : CacheState := ⟨[⟨commentsPostKey 1, .vpage .corrupt, some 1000⟩], [], []⟩

/-- Test fixture: corrupt cached page in front of a healthy store. -/
def stCorrupt : SysState := ⟨dbRootOnly, some cacheCorrupt, 0⟩

/-- Claim C4 counterexample: with caching enabled and a stored payload that
fails to deserialize, get_post_comments returns DeserializationError to the
caller instead of rebuilding — even though rebuilding from the store would
have succeeded. -/
theorem cache_deserialization_error_surfaced_cex :
    (get_post_comments envOk stCorrupt 1 none true).1 = .error .DeserializationError
    ∧ exceptIsOkB (build_post_comments stCorrupt.db 1 1) = true :=
  ⟨rfl, rfl⟩

/-- Claim C4 amended: when the cache probe of get_post_comments finds a live
payload that fails to deserialize, the call returns DeserializationError
(surfaced to the caller as DESERIALIZATION_ERROR) with the state unchanged; it
does not fall through to rebuilding from the store. -/
theorem cache_deserialization_error_surfaced (env : CacheEnv) (st : SysState) (pid : Int)
    (page : Option Int) (cs : CacheState)
    (hc : st.cache = some cs)
    (h1 : env.failPageConn = false) (h2 : env.failPageGet = false)
    (h3 : cacheLookup cs st.now (commentsPostKey pid) = some (.vpage .corrupt)) :
    get_post_comments env st pid page true = (.error .DeserializationError, st) := by
  unfold get_post_comments
  rw [hc]
  simp [h1, h2, h3, deserializeComments]

/-- Witness for cache_deserialization_error_surfaced at the concrete corrupt
state. -/
theorem cache_deserialization_error_surfaced_witness :
    get_post_comments envOk stCorrupt 1 none true = (.error .DeserializationError, stCorrupt) :=
  cache_deserialization_error_surfaced envOk stCorrupt 1 none cacheCorrupt rfl rfl rfl rfl

/-- Test fixture: reply chain, level 0. -/
def chainLevel0 : Comment := ⟨11, 1, 2, none, "c1", "c1", false, none, none, false, 0, 1, 1⟩

/-- Test fixture: reply chain, level 1. -/
def chainLevel1 : Comment := ⟨12, 1, 2, some 11, "c2", "c2", false, none, none, false, 1, 2, 2⟩

/-- Test fixture: reply chain, level 2. -/
def chainLevel2 : Comment := ⟨13, 1, 2, some 12, "c3", "c3", false, none, none, false, 2, 3, 3⟩

/-- Test fixture: database holding the three-level reply chain. -/
def dbChain : DB := ⟨[postOne], [userAlice, userBob], [chainLevel0, chainLevel1, chainLevel2], 100⟩

/-- Test fixture: chain database with user 1 inside the rate-limit window (the
inverted gate lets the call proceed). -/
def stChain : SysState := ⟨dbChain, some cacheMarker1, 10⟩

/-- Test fixture: a reply targeting the level-2 comment. -/
def reqReplyTo13 : CreateCommentRequest := ⟨"c4", some 13, false⟩

/-- Claim C5 counterexample: replying to a comment at nesting level 2 SUCCEEDS
and creates a level-3 comment — the guard rejects only child levels strictly
above MAX_NESTING_DEPTH = 3, so the claimed MAX_DEPTH failure does not occur. -/
theorem reply_to_level2_succeeds_cex :
    exceptIsOkB (create_comment envOk stChain 1 1 reqReplyTo13).1 = true
    ∧ ((create_comment envOk stChain 1 1 reqReplyTo13).2.db.comments.getLast?.map
        (fun c => c.nesting_level)) = some 3
    ∧ (create_comment envOk stChain 1 1 reqReplyTo13).1 ≠ .error .MaxNestingDepthReached :=
  ⟨rfl, rfl, fun h => Bool.noConfusion (congrArg exceptIsOkB h)⟩

/-- Claim C5 amended: the depth guard rejects a reply whose parent already sits
at nesting level 3 (child level 4 > MAX_NESTING_DEPTH) with
MaxNestingDepthReached; a reply to a level-2 parent passes the guard, so the
claimed scenario is off by one level. -/
theorem reply_to_level3_rejected (env : CacheEnv) (st : SysState) (post_id : Int)
    (user_id : Nat) (req : CreateCommentRequest) (cs : CacheState) (pid : Int) (pc : Comment)
    (hc : st.cache = some cs) (he : env.failRlExists = false)
    (hm : cacheKeyLive cs st.now (rateLimitKey user_id) = true)
    (hpost : postExists st.db post_id = true)
    (hreq : req.parent_comment_id = some pid)
    (hfind : findCommentById st.db pid = some pc)
    (hlvl : pc.nesting_level = 3) :
    create_comment env st post_id user_id req = (.error .MaxNestingDepthReached, st) := by
  unfold create_comment check_rate_limit
  rw [hc]
  simp [he, hm, hpost, hreq, hfind, hlvl, MAX_NESTING_DEPTH]

/-- Test fixture: a level-3 comment closing the chain. -/
def chainLevel3 : Comment := ⟨14, 1, 2, some 13, "c4", "c4", false, none, none, false, 3, 4, 4⟩

/-- Test fixture: database holding the four-level chain. -/
def dbChain4 : DB :=
  ⟨[postOne], [userAlice, userBob], [chainLevel0, chainLevel1, chainLevel2, chainLevel3], 100⟩

/-- Test fixture: four-level chain with user 1 inside the window. -/
def stChain4 : SysState := ⟨dbChain4, some cacheMarker1, 10⟩

/-- Witness for reply_to_level3_rejected: replying to the level-3 comment. -/
theorem reply_to_level3_rejected_witness :
    create_comment envOk stChain4 1 1 ⟨"c5", some 14, false⟩
      = (.error .MaxNestingDepthReached, stChain4) :=
  reply_to_level3_rejected envOk stChain4 1 1 ⟨"c5", some 14, false⟩ cacheMarker1 14 chainLevel3
    rfl rfl rfl rfl rfl rfl rfl

/-- On the rebuild path (no cache configured) get_post_comments is exactly the
store rebuild: its ok result equals build_post_comments. -/
theorem get_post_comments_no_cache_build (env : CacheEnv) (st : SysState) (pid : Int)
    (page : Option Int) (wc : Bool) (rs : List CommentResponse)
    (hc : st.cache = none)
    (h : (get_post_comments env st pid page wc).1 = .ok rs) :
    build_post_comments st.db pid (page.getD 1) = .ok rs := by
  unfold get_post_comments at h
  rw [hc] at h
  simp only [Option.isSome_none, Bool.and_false] at h
  cases hb : build_post_comments st.db pid (page.getD 1) with
  | error e => rw [hb] at h; simp at h
  | ok rs2 => rw [hb] at h; simp at h; rw [h]

/-- Every response produced by the per-root loop carries replies = some of the
fetched reply forest for its own id. -/
theorem rootsToResponses_replies_some (db : DB) (roots : List Comment)
    (rs : List CommentResponse) (r : CommentResponse)
    (h : rootsToResponses db roots = .ok rs) (hr : r ∈ rs) :
    r.replies = some (get_comment_replies db r.id) := by
  induction roots generalizing rs with
  | nil =>
    simp [rootsToResponses] at h
    rw [h] at hr
    cases hr
  | cons c rest ih =>
    simp only [rootsToResponses] at h
    cases hfu : findUserById db c.user_id with
    | none => rw [hfu] at h; cases h
    | some u =>
      rw [hfu] at h
      cases hrec : rootsToResponses db rest with
      | error e => rw [hrec] at h; cases h
      | ok rs2 =>
        rw [hrec] at h
        cases h
        cases hr with
        | head => simp [CommentResponse.replies, CommentResponse.id]
        | tail _ hmem => exact ih rs2 hrec hmem

/-- Claim C6 amended: on the store-rebuild path every root returned by
get_post_comments carries replies = some of its fetched reply list; a root
with zero non-deleted replies therefore has replies = some [] — an empty list,
not none. (none marks childless reply nodes at the nested levels, not roots.) -/
theorem root_zero_replies_is_some_empty (env : CacheEnv) (st : SysState) (pid : Int)
    (page : Option Int) (wc : Bool) (rs : List CommentResponse) (r : CommentResponse)
    (hc : st.cache = none)
    (h : (get_post_comments env st pid page wc).1 = .ok rs)
    (hr : r ∈ rs) :
    r.replies = some (get_comment_replies st.db r.id)
    ∧ (get_comment_replies st.db r.id = [] → r.replies = some []) := by
  have hb := get_post_comments_no_cache_build env st pid page wc rs hc h
  have h1 := rootsToResponses_replies_some st.db (rootComments st.db pid (page.getD 1)) rs r hb hr
  refine ⟨h1, fun hz => ?_⟩
  rw [h1, hz]

/-- Test fixture: single live root, no cache backend. -/
def stRootNoCache : SysState := ⟨dbRootOnly, none, 0⟩

/-- Test fixture: the response get_post_comments builds for root 10. -/
def rootTenResponse : CommentResponse := .mk 10 "a" ⟨2, "bob"⟩ 1 none (some [])

/-- Claim C6 counterexample: a root with zero non-deleted replies is returned
with replies = some [] — an empty list — not none as claimed. -/
theorem root_empty_replies_some_cex :
    (get_post_comments envOk stRootNoCache 1 none true).1 = .ok [rootTenResponse]
    ∧ get_comment_replies dbRootOnly 10 = []
    ∧ rootTenResponse.replies ≠ none :=
  ⟨rfl, rfl, fun h => Option.noConfusion h⟩

/-- Witness for root_zero_replies_is_some_empty at the concrete childless root. -/
theorem root_zero_replies_is_some_empty_witness :
    rootTenResponse.replies = some (get_comment_replies stRootNoCache.db rootTenResponse.id)
    ∧ (get_comment_replies stRootNoCache.db rootTenResponse.id = [] →
        rootTenResponse.replies = some []) :=
  root_zero_replies_is_some_empty envOk stRootNoCache 1 none true [rootTenResponse]
    rootTenResponse rfl rfl (List.Mem.head _)

/-- A freshly set key reads back its value while unexpired. -/
theorem cacheLookup_set_self (cs : CacheState) (now t : Nat) (k : String) (v : CacheVal)
    (h : now < t) : cacheLookup (cacheSet cs k v (some t)) now k = some v := by
  simp [cacheLookup, cacheSet, h]

/-- The cache after get_post_comments stores a page: the serialized list under
the post-only key with a 3600 second expiry. -/
def cachedPage (cs : CacheState) (pid : Int) (now : Nat) (rs : List CommentResponse) : CacheState :=
  cacheSet cs (commentsPostKey pid) (.vpage (.serialized rs)) (some (now + 3600))

/-- The system state after get_post_comments populates the cache. -/
def cachedPageState (st : SysState) (cs : CacheState) (pid : Int)
    (rs : List CommentResponse) : SysState :=
  { st with cache := some (cachedPage cs pid st.now rs) }

/-- With caching on and the probe missing, get_post_comments rebuilds from the
store and populates the cache with the serialized page under the post-only key. -/
theorem get_post_comments_miss (env : CacheEnv) (st : SysState) (pid : Int)
    (page : Option Int) (cs : CacheState)
    (hc : st.cache = some cs) (h1 : env.failPageConn = false) (h2 : env.failPageGet = false)
    (h3 : env.failPageSet = false)
    (hmiss : cacheLookup cs st.now (commentsPostKey pid) = none) :
    get_post_comments env st pid page true =
      (match build_post_comments st.db pid (page.getD 1) with
       | .error e => (.error e, st)
       | .ok rs => (.ok rs, cachedPageState st cs pid rs)) := by
  unfold get_post_comments cachedPageState cachedPage
  rw [hc]
  simp only [h1, h2, h3, hmiss, Option.isSome_some, Bool.and_true, Option.some_bind,
    Bool.false_eq_true, if_false]
  cases build_post_comments st.db pid (page.getD 1) with
  | error e => rfl
  | ok rs => rfl

/-- With caching on and the probe finding a live valid serialization,
get_post_comments returns it unchanged. -/
theorem get_post_comments_hit (env : CacheEnv) (st : SysState) (pid : Int)
    (page : Option Int) (cs : CacheState) (rs : List CommentResponse)
    (hc : st.cache = some cs) (h1 : env.failPageConn = false) (h2 : env.failPageGet = false)
    (hhit : cacheLookup cs st.now (commentsPostKey pid) = some (.vpage (.serialized rs))) :
    get_post_comments env st pid page true = (.ok rs, st) := by
  unfold get_post_comments
  rw [hc]
  simp [h1, h2, hhit, deserializeComments]

/-- Claim C10: the comment-list cache key contains the post id only, so after a
page-1 get_post_comments call misses the cache and populates it, a subsequent
page-2 call on the same post finds the same key live and returns the cached
page-1 content instead of the second page of root comments. -/
theorem cache_key_ignores_page (env : CacheEnv) (st st1 : SysState) (pid : Int)
    (cs : CacheState) (rs : List CommentResponse)
    (hc : st.cache = some cs)
    (h1 : env.failPageConn = false) (h2 : env.failPageGet = false) (h3 : env.failPageSet = false)
    (hmiss : cacheLookup cs st.now (commentsPostKey pid) = none)
    (hcall : get_post_comments env st pid (some 1) true = (.ok rs, st1)) :
    (get_post_comments env st1 pid (some 2) true).1 = .ok rs := by
  rw [get_post_comments_miss env st pid (some 1) cs hc h1 h2 h3 hmiss] at hcall
  cases hb : build_post_comments st.db pid ((some (1 : Int)).getD 1) with
  | error e =>
    rw [hb] at hcall
    simp at hcall
  | ok rs2 =>
    rw [hb] at hcall
    simp only [Prod.mk.injEq, Except.ok.injEq] at hcall
    obtain ⟨hrs, hst⟩ := hcall
    rw [← hst]
    have hhit :
        cacheLookup (cachedPage cs pid st.now rs2) st.now (commentsPostKey pid)
          = some (.vpage (.serialized rs2)) :=
      cacheLookup_set_self cs st.now (st.now + 3600) (commentsPostKey pid)
        (.vpage (.serialized rs2)) (by omega)
    have hh := get_post_comments_hit env (cachedPageState st cs pid rs2) pid (some 2)
      (cachedPage cs pid st.now rs2) rs2 rfl h1 h2 hhit
    rw [hh, hrs]

/-- Test fixture: single-root store behind an empty cache at time 0. -/
def stPageOne : SysState := ⟨dbRootOnly, some emptyCache, 0⟩

/-- Witness for cache_key_ignores_page: after the page-1 call populates the
cache, the page-2 call returns the cached page-1 content. -/
theorem cache_key_ignores_page_witness :
    (get_post_comments envOk (get_post_comments envOk stPageOne 1 (some 1) true).2
      1 (some 2) true).1 = .ok [rootTenResponse] :=
  cache_key_ignores_page envOk stPageOne (get_post_comments envOk stPageOne 1 (some 1) true).2
    1 emptyCache [rootTenResponse] rfl rfl rfl rfl rfl rfl

/-- Membership through insertByLe. -/
theorem mem_insertByLe (le : α → α → Bool) (x a : α) (l : List α) :
    a ∈ insertByLe le x l ↔ a = x ∨ a ∈ l := by
  induction l with
  | nil => simp [insertByLe]
  | cons y ys ih =>
    simp only [insertByLe]
    by_cases hle : le x y
    · simp [hle]
    · simp only [hle, if_false, Bool.false_eq_true, List.mem_cons, ih]
      tauto

/-- Sorting preserves membership. -/
theorem mem_sortByLe (le : α → α → Bool) (a : α) (l : List α) :
    a ∈ sortByLe le l ↔ a ∈ l := by
  induction l with
  | nil => simp [sortByLe]
  | cons x xs ih => simp [sortByLe, mem_insertByLe, ih]

/-- A joined reply row comes from a live comment whose parent link is the
queried id. -/
theorem repliesRows_mem (db : DB) (cid : Int) (cu : Comment × User)
    (h : cu ∈ repliesRows db cid) :
    cu.1 ∈ db.comments ∧ cu.1.is_deleted = false ∧ cu.1.parent_comment_id = some cid := by
  unfold repliesRows at h
  rcases List.mem_filterMap.mp h with ⟨c, hc, hmap⟩
  rcases Option.map_eq_some'.mp hmap with ⟨u, _, hcu⟩
  subst hcu
  have hmem := (mem_sortByLe _ _ _).mp hc
  rcases List.mem_filter.mp hmem with ⟨hm2, hcond⟩
  rw [Bool.and_eq_true] at hcond
  obtain ⟨hpar, hdel⟩ := hcond
  refine ⟨hm2, ?_, ?_⟩
  · simpa using hdel
  · simpa [beq_iff_eq] using hpar

/-- A selected root row is a live root comment of the store. -/
theorem rootComments_mem (db : DB) (pid : Int) (page : Int) (c : Comment)
    (h : c ∈ rootComments db pid page) :
    c ∈ db.comments ∧ c.is_deleted = false ∧ c.parent_comment_id = none := by
  unfold rootComments at h
  have h1 := List.mem_of_mem_take h
  have h2 := List.mem_of_mem_drop h1
  have h3 := (mem_sortByLe _ _ _).mp h2
  rcases List.mem_filter.mp h3 with ⟨hm, hc⟩
  rw [Bool.and_eq_true, Bool.and_eq_true] at hc
  obtain ⟨⟨_, hpar⟩, hdel⟩ := hc
  refine ⟨hm, ?_, ?_⟩
  · simpa using hdel
  · simpa using hpar

/-- subNodes of a childless node. -/
theorem subNodes_leaf (i : Int) (h : String) (a : CommentAuthor) (t : Nat) (p : Option Int) :
    (CommentResponse.mk i h a t p none).subNodes = [.mk i h a t p none] := by
  simp [CommentResponse.subNodes]

/-- Membership in subNodes of a node with a reply forest. -/
theorem mem_subNodes_some (i : Int) (hh : String) (a : CommentAuthor) (t : Nat)
    (p : Option Int) (rs : List CommentResponse) (n : CommentResponse) :
    n ∈ (CommentResponse.mk i hh a t p (some rs)).subNodes ↔
      n = .mk i hh a t p (some rs) ∨ ∃ m ∈ rs, n ∈ m.subNodes := by
  rw [CommentResponse.subNodes]
  simp [List.mem_flatMap]

/-- Membership in a collected forest. -/
theorem mem_collectNodes (rs : List CommentResponse) (n : CommentResponse) :
    n ∈ collectNodes rs ↔ ∃ m ∈ rs, n ∈ m.subNodes := by
  simp [collectNodes, List.mem_flatMap]

/-- A node of a subNodes set is the node itself or lies in a member of its
reply forest. -/
theorem mem_subNodes (x n : CommentResponse) (hn : n ∈ x.subNodes) :
    n = x ∨ ∃ rs, x.replies = some rs ∧ ∃ m ∈ rs, n ∈ m.subNodes := by
  cases x with
  | mk i h a t p r =>
    cases r with
    | none =>
      rw [subNodes_leaf] at hn
      left
      simpa using hn
    | some rs =>
      rw [mem_subNodes_some] at hn
      rcases hn with h1 | h1
      · left; exact h1
      · right; exact ⟨rs, rfl, h1⟩

/-- A node of the materialized forest corresponds to a live comment row whose
id and parent link it reports; when its parent field is set, the parent is
itself a live row of the store. -/
def NodeFromStore (db : DB) (n : CommentResponse) : Prop :=
  (∃ c, c ∈ db.comments ∧ c.is_deleted = false ∧ n.id = c.id) ∧
  (n.parent_comment_id = none ∨
    ∃ p, p ∈ db.comments ∧ p.is_deleted = false ∧ n.parent_comment_id = some p.id)

/-- A reply-row response node is from the store, given its queried parent is a
live row. -/
theorem mkReply_node_from_store (db : DB) (cid : Int) (cu : Comment × User)
    (hq : ∃ q, q ∈ db.comments ∧ q.is_deleted = false ∧ q.id = cid)
    (h1 : cu.1 ∈ db.comments) (h2 : cu.1.is_deleted = false)
    (h3 : cu.1.parent_comment_id = some cid)
    (nested : Option (List CommentResponse)) :
    NodeFromStore db (mkReplyResponse cu nested) := by
  rcases hq with ⟨q, hqm, hql, hqid⟩
  constructor
  · exact ⟨cu.1, h1, h2, rfl⟩
  · right
    refine ⟨q, hqm, hql, ?_⟩
    show cu.1.parent_comment_id = some q.id
    rw [h3, hqid]

/-- buildLevel3 flattens to the mapped reply rows (empty fetch included). -/
theorem buildLevel3_getD (db : DB) (pid2 : Int) :
    (buildLevel3 db pid2).getD []
      = (repliesRows db pid2).map (fun cu => mkReplyResponse cu none) := by
  unfold buildLevel3
  by_cases he : (repliesRows db pid2).isEmpty
  · rw [List.isEmpty_iff] at he
    simp [he]
  · simp [he]

/-- buildLevel2 flattens to the mapped reply rows (empty fetch included). -/
theorem buildLevel2_getD (db : DB) (pid2 : Int) :
    (buildLevel2 db pid2).getD []
      = (repliesRows db pid2).map (fun cu =>
          mkReplyResponse cu
            (if cu.1.nesting_level < MAX_NESTING_DEPTH then buildLevel3 db cu.1.id else none)) := by
  unfold buildLevel2
  by_cases he : (repliesRows db pid2).isEmpty
  · rw [List.isEmpty_iff] at he
    simp [he]
  · simp [he]

/-- Every collected node of a third-level forest is from the store. -/
theorem l3_nodes_from_store (db : DB) (pid2 : Int)
    (hp : ∃ q, q ∈ db.comments ∧ q.is_deleted = false ∧ q.id = pid2)
    (n : CommentResponse) (hn : n ∈ collectNodes ((buildLevel3 db pid2).getD [])) :
    NodeFromStore db n := by
  rw [buildLevel3_getD] at hn
  rcases (mem_collectNodes _ _).mp hn with ⟨m, hm, hnm⟩
  rcases List.mem_map.mp hm with ⟨cu, hcu, rfl⟩
  obtain ⟨hc1, hc2, hc3⟩ := repliesRows_mem db pid2 cu hcu
  rcases mem_subNodes _ _ hnm with rfl | ⟨rsx, hrsx, _, _, _⟩
  · exact mkReply_node_from_store db pid2 cu hp hc1 hc2 hc3 none
  · exact absurd hrsx (by simp [mkReplyResponse, CommentResponse.replies])

/-- Every collected node of a second-level forest is from the store. -/
theorem l2_nodes_from_store (db : DB) (pid2 : Int)
    (hp : ∃ q, q ∈ db.comments ∧ q.is_deleted = false ∧ q.id = pid2)
    (n : CommentResponse) (hn : n ∈ collectNodes ((buildLevel2 db pid2).getD [])) :
    NodeFromStore db n := by
  rw [buildLevel2_getD] at hn
  rcases (mem_collectNodes _ _).mp hn with ⟨m, hm, hnm⟩
  rcases List.mem_map.mp hm with ⟨cu, hcu, rfl⟩
  obtain ⟨hc1, hc2, hc3⟩ := repliesRows_mem db pid2 cu hcu
  rcases mem_subNodes _ _ hnm with rfl | ⟨rsx, hrsx, m2, hm2, hnm2⟩
  · exact mkReply_node_from_store db pid2 cu hp hc1 hc2 hc3 _
  · by_cases hlvl : cu.1.nesting_level < MAX_NESTING_DEPTH
    · rw [if_pos hlvl] at hrsx
      have hrsx2 : buildLevel3 db cu.1.id = some rsx := hrsx
      have hn2 : n ∈ collectNodes ((buildLevel3 db cu.1.id).getD []) := by
        rw [hrsx2]
        exact (mem_collectNodes _ _).mpr ⟨m2, hm2, hnm2⟩
      exact l3_nodes_from_store db cu.1.id ⟨cu.1, hc1, hc2, rfl⟩ n hn2
    · rw [if_neg hlvl] at hrsx
      exact absurd hrsx (by simp [mkReplyResponse, CommentResponse.replies])

/-- Every collected node of a get_comment_replies forest is from the store. -/
theorem replies_nodes_from_store (db : DB) (cid : Int)
    (hp : ∃ q, q ∈ db.comments ∧ q.is_deleted = false ∧ q.id = cid)
    (n : CommentResponse) (hn : n ∈ collectNodes (get_comment_replies db cid)) :
    NodeFromStore db n := by
  unfold get_comment_replies at hn
  rcases (mem_collectNodes _ _).mp hn with ⟨m, hm, hnm⟩
  rcases List.mem_map.mp hm with ⟨cu, hcu, rfl⟩
  obtain ⟨hc1, hc2, hc3⟩ := repliesRows_mem db cid cu hcu
  rcases mem_subNodes _ _ hnm with rfl | ⟨rsx, hrsx, m2, hm2, hnm2⟩
  · exact mkReply_node_from_store db cid cu hp hc1 hc2 hc3 _
  · by_cases hlvl : cu.1.nesting_level < MAX_NESTING_DEPTH
    · rw [if_pos hlvl] at hrsx
      have hrsx2 : buildLevel2 db cu.1.id = some rsx := hrsx
      have hn2 : n ∈ collectNodes ((buildLevel2 db cu.1.id).getD []) := by
        rw [hrsx2]
        exact (mem_collectNodes _ _).mpr ⟨m2, hm2, hnm2⟩
      exact l2_nodes_from_store db cu.1.id ⟨cu.1, hc1, hc2, rfl⟩ n hn2
    · rw [if_neg hlvl] at hrsx
      exact absurd hrsx (by simp [mkReplyResponse, CommentResponse.replies])

/-- Every collected node of the per-root loop output is from the store,
provided every processed root is a live row. -/
theorem rootsToResponses_nodes_from_store (db : DB) (roots : List Comment)
    (hroots : ∀ c ∈ roots, c ∈ db.comments ∧ c.is_deleted = false)
    (rs : List CommentResponse) (h : rootsToResponses db roots = .ok rs)
    (n : CommentResponse) (hn : n ∈ collectNodes rs) : NodeFromStore db n := by
  induction roots generalizing rs with
  | nil =>
    simp [rootsToResponses] at h
    rw [h] at hn
    simp [collectNodes] at hn
  | cons c rest ih =>
    simp only [rootsToResponses] at h
    cases hfu : findUserById db c.user_id with
    | none => rw [hfu] at h; cases h
    | some u =>
      rw [hfu] at h
      cases hrec : rootsToResponses db rest with
      | error e => rw [hrec] at h; cases h
      | ok rs2 =>
        rw [hrec] at h
        cases h
        rcases (mem_collectNodes _ _).mp hn with ⟨m, hm, hnm⟩
        rcases List.mem_cons.mp hm with rfl | hm2
        · obtain ⟨hcm, hcl⟩ := hroots c (List.mem_cons_self _ _)
          rcases mem_subNodes _ _ hnm with rfl | ⟨rsx, hrsx, m2, hm2x, hnm2⟩
          · exact ⟨⟨c, hcm, hcl, rfl⟩, Or.inl rfl⟩
          · have hrsx2 : get_comment_replies db c.id = rsx := by
              simpa [CommentResponse.replies] using hrsx
            have hn2 : n ∈ collectNodes (get_comment_replies db c.id) := by
              rw [hrsx2]
              exact (mem_collectNodes _ _).mpr ⟨m2, hm2x, hnm2⟩
            exact replies_nodes_from_store db c.id ⟨c, hcm, hcl, rfl⟩ n hn2
        · exact ih (fun c' hc' => hroots c' (List.mem_cons_of_mem _ hc')) rs2 hrec
            ((mem_collectNodes _ _).mpr ⟨m, hm2, hnm⟩)

/-- Every collected node of a built page is from the store. -/
theorem build_nodes_from_store (db : DB) (pid : Int) (page : Int)
    (rs : List CommentResponse) (h : build_post_comments db pid page = .ok rs)
    (n : CommentResponse) (hn : n ∈ collectNodes rs) : NodeFromStore db n :=
  rootsToResponses_nodes_from_store db (rootComments db pid page)
    (fun c hc => ⟨(rootComments_mem db pid page c hc).1, (rootComments_mem db pid page c hc).2.1⟩)
    rs h n hn

/-- A successful delete_comment rewrites the comment table by the soft-delete
update on every row carrying the target id. -/
theorem delete_comment_ok_db (env : CacheEnv) (st : SysState) (cid : Int) (uid : Nat)
    (adm : Bool) (res : Int) (st2 : SysState)
    (h : delete_comment env st cid uid adm = (.ok res, st2)) :
    st2.db.comments = st.db.comments.map (fun c =>
      if c.id == cid then
        { c with is_deleted := true, content := "[deleted]",
                 content_html := "<p>[deleted]</p>", deleted_by := some uid,
                 deleted_at := some st.now, updated_at := st.now }
      else c) := by
  unfold delete_comment at h
  cases hf : st.db.comments.find? (fun c => c.id == cid && !c.is_deleted) with
  | none => rw [hf] at h; simp at h
  | some comment =>
    rw [hf] at h
    dsimp only at h
    by_cases hauth : (comment.user_id != uid && !adm) = true
    · rw [if_pos hauth] at h; simp at h
    · rw [if_neg hauth] at h
      cases hcache : st.cache with
      | none =>
        rw [hcache] at h
        injection h with h1 h2
        rw [← h2]
      | some cs =>
        rw [hcache] at h
        dsimp only at h
        by_cases hd : env.failListDel = true
        · rw [if_pos hd] at h; simp at h
        · rw [if_neg hd] at h
          by_cases hdc : env.failCountDecr = true
          · rw [if_pos hdc] at h; simp at h
          · rw [if_neg hdc] at h
            injection h with h1 h2
            rw [← h2]

/-- After a successful delete_comment, every row carrying the deleted id is
soft-deleted. -/
theorem delete_comment_kills_id (env : CacheEnv) (st : SysState) (cid : Int) (uid : Nat)
    (adm : Bool) (res : Int) (st2 : SysState)
    (h : delete_comment env st cid uid adm = (.ok res, st2)) :
    ∀ c ∈ st2.db.comments, c.id = cid → c.is_deleted = true := by
  intro c hc hid
  rw [delete_comment_ok_db env st cid uid adm res st2 h] at hc
  rcases List.mem_map.mp hc with ⟨c0, _, rfl⟩
  by_cases hb : (c0.id == cid) = true
  · simp [hb]
  · rw [Bool.not_eq_true] at hb
    rw [if_neg (by simp [hb])] at hid ⊢
    exact absurd hid (by simpa [beq_iff_eq] using hb)

/-- Claim C7 amended: after delete_comment succeeds on comment C, the comment
is indeed absent from get_post_comments output for any post — but so is every
reply that was attached to it: no node of the returned forest (at any depth)
carries C's id, and none names C as its parent. The reply rows survive in the
store, yet the tree builder never descends through a deleted comment, so they
are hidden rather than displayed as orphans. -/
theorem delete_hides_subtree (env env2 : CacheEnv) (st st2 : SysState) (cid res : Int)
    (uid : Nat) (adm : Bool) (pid : Int) (page : Option Int) (rs : List CommentResponse)
    (hdel : delete_comment env st cid uid adm = (.ok res, st2))
    (hc2 : st2.cache = none)
    (hget : (get_post_comments env2 st2 pid page true).1 = .ok rs) :
    (collectNodes rs).all (avoidsId cid) = true := by
  have hb := get_post_comments_no_cache_build env2 st2 pid page true rs hc2 hget
  rw [List.all_eq_true]
  intro n hn
  have hgood := build_nodes_from_store st2.db pid (page.getD 1) rs hb n hn
  have hkill := delete_comment_kills_id env st cid uid adm res st2 hdel
  rcases hgood with ⟨⟨c, hcm, hcl, hid⟩, hpar⟩
  have hid_ne : n.id ≠ cid := by
    intro he
    have hdead := hkill c hcm (by rw [← hid, he])
    rw [hdead] at hcl
    cases hcl
  have hpar_ne : n.parent_comment_id ≠ some cid := by
    intro he
    rcases hpar with h0 | ⟨p, hpm, hpl, hps⟩
    · rw [h0] at he; cases he
    · rw [hps] at he
      injection he with he2
      have hdead := hkill p hpm he2
      rw [hdead] at hpl
      cases hpl
  simp [avoidsId, bne_iff_ne, hid_ne, hpar_ne]

/-- Test fixture: a live reply (id 21, by user 1) under root comment 10. -/
def replyTwentyOne : Comment := ⟨21, 1, 1, some 10, "r", "r", false, none, none, false, 1, 2, 2⟩

/-- Test fixture: store with root 10 (by user 2) and its reply 21. -/
def dbParentReply : DB := ⟨[postOne], [userAlice, userBob], [commentTen, replyTwentyOne], 100⟩

/-- Test fixture: the pre-delete state, no cache backend. -/
def stParentReply : SysState := ⟨dbParentReply, none, 5⟩

/-- Claim C7 counterexample: after user 2 deletes root comment 10, its reply 21
— still live in the store — does NOT appear in get_post_comments output: the
output is empty, the reply is hidden rather than orphan-displayed. -/
theorem deleted_parent_hides_reply_cex :
    (delete_comment envOk stParentReply 10 2 false).1 = .ok 10
    ∧ (get_post_comments envOk (delete_comment envOk stParentReply 10 2 false).2
        1 none true).1 = .ok []
    ∧ (((delete_comment envOk stParentReply 10 2 false).2.db.comments.find?
        (fun c => c.id == 21)).map (fun c => c.is_deleted)) = some false :=
  ⟨rfl, rfl, rfl⟩

/-- Witness for delete_hides_subtree at the concrete delete of comment 10. -/
theorem delete_hides_subtree_witness :
    (collectNodes []).all (avoidsId 10) = true :=
  delete_hides_subtree envOk envOk stParentReply
    (delete_comment envOk stParentReply 10 2 false).2 10 10 2 false 1 none [] rfl rfl rfl
